import Mathlib

/-!
Verification development for the shellAI repository (src/shellai.py and the
older variant src/shellAI.py): a terminal assistant that extracts a shell
command from a model response, escapes it, and injects it into a tmux pane.

The definitions below are a shallow embedding of the Python source:
pure string functions are translated directly; the effectful top-level
script is modelled as a function producing a list of `Effect`s plus a
termination status.  Python strings are modelled as Lean `String`
(lists of characters); `str.strip`, `str.split`, `str.splitlines` and
`str.ljust` are modelled with the exact CPython character sets (the
Unicode whitespace set of `str.isspace` for strip, the line-break set of
`str.splitlines` for splitlines).  A fallible Python expression (one that
can raise) is modelled with `Option` or with a `Term.crashed` result.
-/

/-- Whitespace set of Python `str.strip`, i.e. exactly the characters for
which CPython `str.isspace` is true: tab through carriage return, the
separators 0x1C-0x1F, space, NEL, no-break space, Ogham space mark, the
en-quad..hair-space range 0x2000-0x200A, line and paragraph separator,
narrow no-break space, medium mathematical space and ideographic space. -/
def pyIsSpace (c : Char) : Bool :=
  c = ' ' || c = '\t' || c = '\n' || c = '\r' || c = '\x0b' || c = '\x0c' ||
  c = '\x1c' || c = '\x1d' || c = '\x1e' || c = '\x1f' || c = '\x85' || c = '\xa0' ||
  c = '\u1680' || ('\u2000' ≤ c && c ≤ '\u200a') || c = '\u2028' || c = '\u2029' ||
  c = '\u202f' || c = '\u205f' || c = '\u3000'

/-- Model of Python `str.strip()` on a character list. -/
def pyStripList (l : List Char) : List Char :=
  ((l.dropWhile pyIsSpace).reverse.dropWhile pyIsSpace).reverse

/-- Model of Python `s.split("\n")[-1]`: the suffix after the last newline
(`split` with an explicit separator never returns an empty list, so the
indexing never raises). -/
def pySplitNlLast (l : List Char) : List Char :=
  (l.reverse.takeWhile (fun c => c ≠ '\n')).reverse

/-- Line-break characters recognised by Python `str.splitlines`
(restricted to the ASCII range plus NEL and the Unicode separators). -/
def pyIsLineBreak (c : Char) : Bool :=
  c = '\n' || c = '\r' || c = '\x0b' || c = '\x0c' ||
  c = '\x1c' || c = '\x1d' || c = '\x1e' || c = '\x85' ||
  c = '\u2028' || c = '\u2029'

/-- Worker for `pySplitlinesList`; `acc` holds the current line reversed, and
`skipNl` is set right after a carriage return so that a following newline is
consumed as part of the same `"\r\n"` break. -/
def pySplitlinesAux : List Char → List Char → Bool → List (List Char)
  | [], acc, _ => if acc.isEmpty then [] else [acc.reverse]
  | c :: rest, acc, skipNl =>
    if skipNl && (c = '\n') then pySplitlinesAux rest acc false
    else if c = '\r' then acc.reverse :: pySplitlinesAux rest [] true
    else if pyIsLineBreak c then acc.reverse :: pySplitlinesAux rest [] false
    else pySplitlinesAux rest (c :: acc) false

/-- Model of Python `str.splitlines()`: splits at line breaks, treating
`"\r\n"` as one break, and drops a trailing empty line
(`"".splitlines() == []`, `"a\n".splitlines() == ["a"]`). -/
def pySplitlinesList (l : List Char) : List (List Char) :=
  pySplitlinesAux l [] false

/-- Model of Python `str.ljust(w)`: pad on the right with spaces to width `w`. -/
def pyLjust (s : String) (w : Nat) : String :=
  s ++ String.mk (List.replicate (w - s.length) ' ')

/-- Substitution table of `clean_command` in src/shellai.py (lines 59-67):
a dict lookup applied independently to every character, newline becoming a
space. -/
def cleanSub (c : Char) : List Char :=
  if c = '"' then ['\\', '"']
  else if c = '\n' then [' ']
  else if c = '$' then ['\\', '$']
  else if c = '\x60' then ['\\', '\x60']
  else if c = '\\' then ['\\', '\\']
  else [c]

/-- Model of `clean_command` in src/shellai.py:
`"".flatten(subs.get(x, x) for x in c)`. -/
def clean_command (s : String) : String :=
  String.mk (s.data.map cleanSub).flatten

/-- Substitution table of `clean_command` in src/shellAI.py (lines 99-108);
identical except that newline maps to the empty string. -/
def cleanSubOld (c : Char) : List Char :=
  if c = '"' then ['\\', '"']
  else if c = '\n' then []
  else if c = '$' then ['\\', '$']
  else if c = '\x60' then ['\\', '\x60']
  else if c = '\\' then ['\\', '\\']
  else [c]

/-- Model of `clean_command` in src/shellAI.py. -/
def clean_commandOld (s : String) : String :=
  String.mk (s.data.map cleanSubOld).flatten

/-- Safety automaton for text interpolated inside a double-quoted shell
string: a backslash must be followed by one of `"`, `$`, backtick or
backslash (an escape pair), and outside escape pairs none of `"`, `$`,
backtick or a raw newline may occur.  `dquoteSafe l = true` formalises
"contains no unescaped double-quote, backtick, dollar or backslash and no
raw newline". -/
def dquoteSafeAux : List Char → Bool → Bool
  | [], afterBs => !afterBs
  | c :: rest, afterBs =>
    if afterBs then (c = '"' || c = '$' || c = '\x60' || c = '\\') && dquoteSafeAux rest false
    else if c = '\\' then dquoteSafeAux rest true
    else !(c = '"' || c = '$' || c = '\x60' || c = '\n') && dquoteSafeAux rest false

/-- Safety of a whole string: scanned from the start, outside any escape
pair. -/
def dquoteSafe (l : List Char) : Bool :=
  dquoteSafeAux l false

/-- Fence opener of the extraction regexes: the literal three backticks,
an optional `bash` or `shell` tag (case-sensitive, exactly as in the
source, which passes no IGNORECASE flag), then a newline.  Returns the
text after the opener when it matches at the head of `l`. -/
def fenceHeader (l : List Char) : Option (List Char) :=
  if l.take 8 = ['\x60', '\x60', '\x60', 'b', 'a', 's', 'h', '\n'] then some (l.drop 8)
  else if l.take 9 = ['\x60', '\x60', '\x60', 's', 'h', 'e', 'l', 'l', '\n'] then some (l.drop 9)
  else if l.take 4 = ['\x60', '\x60', '\x60', '\n'] then some (l.drop 4)
  else none

/-- Lazy group `(.+?)\n` under DOTALL of the src/shellai.py regex: the
shortest non-empty prefix that is immediately followed by a newline,
returned together with the text after that newline. -/
def lazyToNewline : List Char → Option (List Char × List Char)
  | [] => none
  | c :: rest =>
    match rest with
    | '\n' :: rest2 => some ([c], rest2)
    | _ =>
      match lazyToNewline rest with
      | some (p, r) => some (c :: p, r)
      | none => none

/-- Lazy group `(.+?)` followed by three literal backticks, under DOTALL,
of the src/shellAI.py regex: the shortest non-empty prefix immediately
followed by three backticks, returned with the text after the backticks. -/
def lazyToFence : List Char → Option (List Char × List Char)
  | [] => none
  | c :: rest =>
    if rest.take 3 = ['\x60', '\x60', '\x60'] then some ([c], rest.drop 3)
    else
      match lazyToFence rest with
      | some (p, r) => some (c :: p, r)
      | none => none

/-- Scanner of `re.findall` for the src/shellai.py pattern
three backticks + optional bash-or-shell tag + newline + `(.+?)` + newline,
with DOTALL: try to match at each position, and continue after the end of
each match.  The fuel argument (instantiated with the text length) only
makes the recursion structural; each step consumes at least one character. -/
def findallFenceAux (pat : List Char → Option (List Char × List Char)) :
    Nat → List Char → List (List Char)
  | 0, _ => []
  | _ + 1, [] => []
  | fuel + 1, l =>
    match fenceHeader l with
    | some afterHeader =>
      match pat afterHeader with
      | some (p, r) => p :: findallFenceAux pat fuel r
      | none => findallFenceAux pat fuel l.tail
    | none => findallFenceAux pat fuel l.tail

/-- Model of `re.findall(r"```(?:bash|shell)?\n(.+?)\n", response, re.DOTALL)`
from src/shellai.py (line 215), as a list of captured groups. -/
def fenceBlocks (response : String) : List (List Char) :=
  findallFenceAux lazyToNewline response.data.length response.data

/-- Model of `re.findall(r"```(?:bash|shell)?\n(.+?)```", response, re.DOTALL)`
from src/shellAI.py (line 138). -/
def fenceBlocksOld (response : String) : List (List Char) :=
  findallFenceAux lazyToFence response.data.length response.data

/-- Model of `extract_command` in src/shellai.py (lines 213-226).
Returns `none` exactly where the Python raises: the fallback
`response.strip().splitlines()[-1]` raises IndexError when the stripped
response is empty. -/
def extract_command (response : String) : Option String :=
  match (fenceBlocks response).getLast? with
  | some b => some (String.mk (pySplitNlLast (pyStripList b)))
  | none =>
    match (pySplitlinesList (pyStripList response.data)).getLast? with
    | some l => some (String.mk l)
    | none => none

/-- Model of the command extraction block of src/shellAI.py (lines 135-146);
same shape as `extract_command` but with the older regex whose lazy group
runs to the closing fence. -/
def extract_commandOld (response : String) : Option String :=
  match (fenceBlocksOld response).getLast? with
  | some b => some (String.mk (pySplitNlLast (pyStripList b)))
  | none =>
    match (pySplitlinesList (pyStripList response.data)).getLast? with
    | some l => some (String.mk l)
    | none => none

/-- Model of `re.sub(r"```.*?\n.*?\n", "", response, flags=re.DOTALL)` needs
the position after the first newline of a list, or `none` when there is no
newline (the lazy `.*?\n` group). -/
def afterFirstNewline : List Char → Option (List Char)
  | [] => none
  | '\n' :: rest => some rest
  | _ :: rest => afterFirstNewline rest

/-- Single-position matcher for the pattern three backticks + lazy-to-newline
+ lazy-to-newline; returns the text after the whole match. -/
def fenceSubMatch (l : List Char) : Option (List Char) :=
  if l.take 3 = ['\x60', '\x60', '\x60'] then
    match afterFirstNewline (l.drop 3) with
    | some r1 => afterFirstNewline r1
    | none => none
  else none

/-- Worker for `reSubFence`, fuel-structural like `findallFenceAux`. -/
def reSubFenceAux : Nat → List Char → List Char
  | 0, l => l
  | _ + 1, [] => []
  | fuel + 1, c :: rest =>
    match fenceSubMatch (c :: rest) with
    | some r => reSubFenceAux fuel r
    | none => c :: reSubFenceAux fuel rest

/-- Model of `re.sub(r"```.*?\n.*?\n", "", response, flags=re.DOTALL)` from
src/shellai.py line 238: every match of the fence pattern is removed. -/
def reSubFence (s : String) : String :=
  String.mk (reSubFenceAux s.data.length s.data)

/-- Worker for `reSubLiteral`. -/
def reSubLiteralAux (pat : List Char) : Nat → List Char → List Char
  | 0, l => l
  | _ + 1, [] => []
  | fuel + 1, c :: rest =>
    if pat ≠ [] ∧ (c :: rest).take pat.length = pat then
      reSubLiteralAux pat fuel ((c :: rest).drop pat.length)
    else c :: reSubLiteralAux pat fuel rest

/-- Display-only model of `re.sub(rf"{command}", "", response, re.DOTALL)`
from src/shellai.py line 239.  The source passes the extracted command
itself as a regex pattern; this model removes literal occurrences, which
coincides with the source whenever the command contains no regex
metacharacter.  No claim depends on this display text: it only appears as
the payload of a `print` effect on the success path. -/
def reSubLiteral (pat s : String) : String :=
  String.mk (reSubLiteralAux pat.data s.data.length s.data)

/-- Observable actions of the script, in program order.  A `shell` effect is
a `subprocess.run(..., shell=True)` call carrying the exact command string;
`httpPost` is the `requests.post` call of `get_response_default` (its JSON
payload is not tracked); `fileWrite` is an append to an open file; `sleep`
is `time.sleep`. -/
inductive Effect where
  | print (s : String)
  | httpPost (url : String)
  | fileWrite (path : String) (data : String)
  | shell (cmd : String)
  | sleep (seconds : ℚ)
deriving DecidableEq, Repr

/-- How an invocation ends: falling off the end, `quit()` (which raises
SystemExit with no code, so the process exit status is 0), or an uncaught
exception (process exit status 1). -/
inductive Term where
  | normal
  | exited (code : Nat)
  | crashed (exn : String)
deriving DecidableEq, Repr

/-- Process exit status resulting from a `Term`. -/
def exitCode : Term → Nat
  | Term.normal => 0
  | Term.exited c => c
  | Term.crashed _ => 1

/-- Response-fetching strategy of a provider table entry (the `wrapper`
field in src/shellai.py lines 396-434). -/
inductive FetchStrategy where
  | httpJson
  | sdkGemini
  | sdkAnthropic
deriving DecidableEq, Repr

/-- One entry of the provider registry of src/shellai.py (lines 396-434). -/
structure Provider where
  url : String
  api_key : String
  default_model : String
  strategy : FetchStrategy
deriving DecidableEq, Repr

/-- The provider registry `providers` of src/shellai.py, verbatim. -/
def providers : List (String × Provider) :=
  [("openrouter", ⟨"https://openrouter.ai/api/v1/chat/completions",
      "OPENROUTER_API_KEY", "nousresearch/hermes-3-llama-3.1-405b:free", FetchStrategy.httpJson⟩),
   ("xai", ⟨"https://api.x.ai/v1/chat/completions",
      "XAI_API_KEY", "grok-beta", FetchStrategy.httpJson⟩),
   ("gemini", ⟨"https://generativelanguage.googleapis.com/v1beta/models/",
      "GEMINI_API_KEY", "gemini-1.5-flash-002", FetchStrategy.sdkGemini⟩),
   ("anthropic", ⟨"https://api.anthropic.com/v1/messages",
      "ANTHROPIC_API_KEY", "claude-3-5-sonnet-20240620", FetchStrategy.sdkAnthropic⟩),
   ("together", ⟨"https://api.together.xyz/v1/chat/completions",
      "TOGETHER_API_KEY", "meta-llama/Llama-Vision-Free", FetchStrategy.httpJson⟩),
   ("openai", ⟨"https://api.openai.com/v1/chat/completions",
      "OPENAI_API_KEY", "gpt-4o-mini", FetchStrategy.httpJson⟩)]

/-- The openrouter entry (the default provider), used by concrete runs. -/
def openrouterProvider : Provider :=
  ⟨"https://openrouter.ai/api/v1/chat/completions", "OPENROUTER_API_KEY",
   "nousresearch/hermes-3-llama-3.1-405b:free", FetchStrategy.httpJson⟩

/-- The flags of src/shellai.py that the modelled region (lines 192-281 and
552-573) reads.  Flags that only feed the out-of-scope CLI layer
(`--provider`, `--model`, `--file`, `--scrollback`, `--system-prompt`) are
resolved before the modelled region starts and enter it only through the
`Provider` value and the prompt strings. -/
structure Args where
  auto : Bool
  recursive : Bool
  quiet : Bool
  verbose : Bool
  debug : Bool
  target : String
  log : Option String
  log_commands : Option String
  delay : ℚ
deriving DecidableEq, Repr

/-- Outcome of the `requests.post` call in `get_response_default`
(src/shellai.py lines 113-128), as observed by the code that follows it:
status 200 with the `choices[0].message.content` field present (`ok`),
status 200 with that field missing — `rawBody` is the printed repr of the
parsed body (`malformed`), or a non-200 status with its body text. -/
inductive FetchOutcome where
  | ok (content : String)
  | malformed (rawBody : String)
  | httpError (status : Nat) (body : String)
deriving DecidableEq, Repr

/-- The 42-hyphen separator line printed in verbose mode. -/
def dashesLine : String := "------------------------------------------"

/-- Model of `get_response_default` (src/shellai.py lines 107-142): one
HTTP POST, then either the content, or `print` + `print` + `quit()` on a
missing field or a non-200 status. -/
def get_response_default_m (p : Provider) (fetch : FetchOutcome) :
    List Effect × Except Term String :=
  match fetch with
  | FetchOutcome.ok content => ([Effect.httpPost p.url], Except.ok content)
  | FetchOutcome.malformed rawBody =>
      ([Effect.httpPost p.url, Effect.print "unexpected output", Effect.print rawBody],
       Except.error (Term.exited 0))
  | FetchOutcome.httpError status body =>
      ([Effect.httpPost p.url, Effect.print ("Error: " ++ toString status), Effect.print body],
       Except.error (Term.exited 0))

/-- Model of `get_response_debug` (src/shellai.py lines 70-83).  The
`prompt.splitlines()[0:-1][0]` expression raises IndexError when the prompt
has fewer than two lines. -/
def get_response_debug_m (prefixInput prompt sysPrompt : String) (verbose : Bool) :
    List Effect × Except Term String :=
  let pre := if verbose then
      [Effect.print "raw input", Effect.print dashesLine,
       Effect.print (String.intercalate "\n"
         ((pySplitlinesList prompt.data).map (fun l => "# " ++ String.mk l))),
       Effect.print dashesLine]
    else []
  match ((pySplitlinesList prompt.data).dropLast).head? with
  | none => (pre, Except.error (Term.crashed "IndexError"))
  | some firstLine =>
    (pre, Except.ok
      (pyLjust "sys prompt len:" 20 ++ toString sysPrompt.length ++
       pyLjust "prompt len:" 20 ++ toString prompt.length ++ "\n" ++
       pyLjust "prefix_input:" 20 ++ String.mk firstLine ++ "\n" ++
       "test code block:\n" ++
       "```bash\n echo \"$(" ++ prefixInput ++ ")\"\n```\n"))

/-- Model of `get_response` (src/shellai.py lines 192-210) with the
HTTP_JSON wrapper `get_response_default`.  `logOk` is the oracle for
whether the append to `args.log` succeeds; on failure the uncaught OSError
propagates (`Term.crashed`). -/
def get_response_m (args : Args) (p : Provider) (fetch : FetchOutcome) (logOk : Bool)
    (prefixInput prompt sysPrompt : String) : List Effect × Except Term String :=
  let pre := if args.verbose then [Effect.print "getting response"] else []
  let step := if args.debug then get_response_debug_m prefixInput prompt sysPrompt args.verbose
              else get_response_default_m p fetch
  match step with
  | (es, Except.error t) => (pre ++ es, Except.error t)
  | (es, Except.ok response) =>
    let es2 := if args.verbose then
        [Effect.print "raw response", Effect.print dashesLine,
         Effect.print response, Effect.print dashesLine]
      else []
    match args.log with
    | some f =>
        if logOk then (pre ++ es ++ es2 ++ [Effect.fileWrite f response], Except.ok response)
        else (pre ++ es ++ es2, Except.error (Term.crashed "OSError"))
    | none => (pre ++ es ++ es2, Except.ok response)

/-- Keystroke-sending tail of `put_command` (src/shellai.py lines 254-281),
after the command has been cleaned and logged: the optional recursive
re-invocation, the send of the command itself, the cosmetic newline for the
invoking pane, and the auto-run delay plus Enter keystroke. -/
def put_command_core (args : Args) (c : String) (argv : List String)
    (defaultTarget : String) : List Effect :=
  let enter := if args.auto then "ENTER" else ""
  (if args.recursive ∧ ¬(args.target = defaultTarget) then
      [Effect.shell ("tmux send-keys \"shellai " ++ String.intercalate " " argv ++ "\" " ++ enter),
       Effect.print "\n"]
    else []) ++
  [Effect.shell ("tmux send-keys -t " ++ args.target ++ " \"" ++
      (if args.recursive ∧ args.target = defaultTarget then
         c ++ ";shellai " ++ String.intercalate " " argv
       else c) ++ "\"")] ++
  (if args.target = defaultTarget then [Effect.print "\n"] else []) ++
  (if args.auto then
      [Effect.sleep args.delay,
       Effect.shell ("tmux send-keys -t " ++ args.target ++ "  " ++ enter)]
    else [])

/-- Model of `put_command` (src/shellai.py lines 247-281).  `cmdLogOk` is
the oracle for the append to `args.log_commands`; its failure raises an
uncaught OSError before any keystroke is sent. -/
def put_command_m (args : Args) (command : String) (argv : List String)
    (defaultTarget : String) (cmdLogOk : Bool) : List Effect × Term :=
  let c := clean_command command
  match args.log_commands with
  | some f =>
      if cmdLogOk then
        (Effect.fileWrite f (c ++ "\n") :: put_command_core args c argv defaultTarget,
         Term.normal)
      else ([], Term.crashed "OSError")
  | none => (put_command_core args c argv defaultTarget, Term.normal)

/-- Model of `main` (src/shellai.py lines 229-244): fetch, extract, print
the explanation unless quiet, and inject when the command is non-empty.
The verbose `code_blocks` print of `extract_command` (line 218) is emitted
here, between the fetch and the extraction result. -/
def main_m (args : Args) (p : Provider) (fetch : FetchOutcome) (logOk cmdLogOk : Bool)
    (prefixInput prompt sysPrompt : String) (argv : List String)
    (defaultTarget : String) : List Effect × Term :=
  match get_response_m args p fetch logOk prefixInput prompt sysPrompt with
  | (es, Except.error t) => (es, t)
  | (es, Except.ok response) =>
    let esCb := if args.verbose then
        [Effect.print (pyLjust "code_blocks:" 20 ++
          String.intercalate ":" ((fenceBlocks response).map String.mk))]
      else []
    match extract_command response with
    | none => (es ++ esCb, Term.crashed "IndexError")
    | some command =>
      let esShow := if ¬args.quiet then
          [Effect.print "\n", Effect.print (reSubLiteral command (reSubFence response))]
        else []
      if command = "" then (es ++ esCb ++ esShow, Term.normal)
      else
        match put_command_m args command argv defaultTarget cmdLogOk with
        | (es3, t) => (es ++ esCb ++ esShow ++ es3, t)

/-- Model of the top of src/shellai.py from the credential lookup on
(lines 552-573): read the provider credential from the environment, quit
with a message naming the missing variable when absent, then run `main`
when there is input.  Everything before the lookup (argument parsing,
system-prompt and /etc/os-release reads, scrollback capture) is the
out-of-scope CLI layer and enters only through the parameters. -/
def script_m (args : Args) (p : Provider) (env : String → Option String)
    (fetch : FetchOutcome) (logOk cmdLogOk : Bool)
    (prefixInput inputString sysPrompt : String) (argv : List String)
    (defaultTarget : String) : List Effect × Term :=
  match env p.api_key with
  | none => ([Effect.print ("need " ++ p.api_key ++ " environment variable")], Term.exited 0)
  | some _ =>
    if prefixInput ++ inputString = "" then ([Effect.print "no input"], Term.normal)
    else main_m args p fetch logOk cmdLogOk prefixInput
           (prefixInput ++ ":\n" ++ inputString) sysPrompt argv defaultTarget

/-- Truth value of the Python guard `os.getenv("TMUX") != ""`
(src/shellai.py line 522): an unset variable reads as None, and
`None != ""` is True, so only the empty string fails the guard. -/
def tmuxGuard (tmuxEnv : Option String) : Bool :=
  match tmuxEnv with
  | none => true
  | some s => s ≠ ""

/-- Where src/shellai.py takes its prompt input from (lines 519-530). -/
inductive InputSource where
  | piped
  | paneCapture
  | empty
deriving DecidableEq, Repr

/-- Model of the input-selection chain of src/shellai.py lines 519-530:
piped stdin when stdin is not a tty, otherwise a tmux scrollback capture
guarded by `os.getenv("TMUX") != ""`, otherwise no input at all. -/
def selectInputSource (stdinIsTty : Bool) (tmuxEnv : Option String) : InputSource :=
  if ¬stdinIsTty then InputSource.piped
  else if tmuxGuard tmuxEnv then InputSource.paneCapture
  else InputSource.empty

/-- Effect classifier: the `subprocess.run` calls, which are all
tmux send-keys invocations in the modelled region. -/
def isShellEffect : Effect → Bool
  | Effect.shell _ => true
  | _ => false

/-- Effect classifier: network calls. -/
def isNetworkEffect : Effect → Bool
  | Effect.httpPost _ => true
  | _ => false

/-- Whether a string ends with the characters `ENTER` (checked on the
reversed character list). -/
def strEndsWithEnter (s : String) : Bool :=
  s.data.reverse.take 5 = ['R', 'E', 'T', 'N', 'E']

/-- Effect classifier: a shell command whose text ends in `ENTER`, i.e. a
tmux send-keys call that presses Enter in the pane. -/
def sendsEnter : Effect → Bool
  | Effect.shell c => strEndsWithEnter c
  | _ => false

/-- The exact command string `put_command` places on the target pane: the
cleaned command, with the recursive re-invocation appended when targeting
the invoking pane. -/
def placedCommand (args : Args) (command : String) (argv : List String)
    (defaultTarget : String) : String :=
  if args.recursive ∧ args.target = defaultTarget then
    clean_command command ++ ";shellai " ++ String.intercalate " " argv
  else clean_command command

/-- The exact `subprocess.run` string that sends the command to the pane. -/
def cmdSendString (args : Args) (c2 : String) : String :=
  "tmux send-keys -t " ++ args.target ++ " \"" ++ c2 ++ "\""

/-- Arguments with every flag off: no auto-run, no logs, target `tgt`. -/
def argsPlain : Args := ⟨false, false, false, false, false, "tgt", none, none, 2⟩

/-- Arguments with a response log file configured and all flags off. -/
def argsWithLog : Args := ⟨false, false, false, false, false, "tgt", some "out.log", none, 2⟩

/-- Arguments with auto-run on and no logs. -/
def argsAuto : Args := ⟨true, false, false, false, false, "t0", none, none, 2⟩

/- ------------------------------------------------------------------ -/
/- Helper lemmas. -/

theorem mem_dropWhile_of_not (p : Char → Bool) :
    ∀ (l : List Char) (c : Char), c ∈ l → p c = false → c ∈ l.dropWhile p := by
  intro l
  induction l with
  | nil => intro c hc _; cases hc
  | cons a t ih =>
    intro c hc hp
    by_cases ha : p a = true
    · rw [List.dropWhile_cons_of_pos ha]
      rcases List.mem_cons.mp hc with h1 | h1
      · subst h1; rw [hp] at ha; cases ha
      · exact ih c h1 hp
    · rw [List.dropWhile_cons_of_neg ha]
      exact hc

theorem pyStripList_ne_nil {l : List Char} {c : Char}
    (hc : c ∈ l) (hs : pyIsSpace c = false) : pyStripList l ≠ [] := by
  have h1 : c ∈ l.dropWhile pyIsSpace := mem_dropWhile_of_not pyIsSpace l c hc hs
  have h2 : c ∈ (l.dropWhile pyIsSpace).reverse := List.mem_reverse.mpr h1
  have h3 : c ∈ (l.dropWhile pyIsSpace).reverse.dropWhile pyIsSpace :=
    mem_dropWhile_of_not pyIsSpace _ c h2 hs
  have h4 : c ∈ pyStripList l := List.mem_reverse.mpr h3
  exact List.ne_nil_of_mem h4


theorem pySplitlinesAux_ne_nil :
    ∀ (l acc : List Char), (l = [] → acc ≠ []) → pySplitlinesAux l acc false ≠ [] := by
  intro l
  induction l with
  | nil =>
    intro acc h
    have hacc : acc ≠ [] := h rfl
    have hie : acc.isEmpty = false := by
      cases acc with
      | nil => exact absurd rfl hacc
      | cons a t => rfl
    simp only [pySplitlinesAux, hie]
    simp
  | cons c rest ih =>
    intro acc _
    by_cases hr : c = '\r'
    · simp only [pySplitlinesAux, hr]
      simp
    · by_cases hb : pyIsLineBreak c = true
      · simp only [pySplitlinesAux, if_neg hr, if_pos hb]
        simp
      · have hb2 : pyIsLineBreak c = false := by
          cases h2 : pyIsLineBreak c
          · rfl
          · exact absurd h2 hb
        simp only [pySplitlinesAux, if_neg hr, hb2]
        simp only [Bool.false_and, Bool.false_eq_true, if_false]
        exact ih (c :: acc) (fun _ => List.cons_ne_nil c acc)

theorem pySplitlinesList_ne_nil {l : List Char} (h : l ≠ []) :
    pySplitlinesList l ≠ [] :=
  pySplitlinesAux_ne_nil l [] (fun he => absurd he h)

theorem getLast?_isSome_of_ne_nil : ∀ {l : List Char}, l ≠ [] → (List.getLast? l).isSome = true := by
  intro l h
  cases hl : l.getLast? with
  | some a => rfl
  | none => exact absurd (List.getLast?_eq_none_iff.mp hl) h

theorem dquoteSafe_append_cleanSub (c : Char) (l : List Char) :
    dquoteSafeAux (cleanSub c ++ l) false = dquoteSafeAux l false := by
  by_cases h1 : c = '"'
  · subst h1; rfl
  · by_cases h2 : c = '\n'
    · subst h2; rfl
    · by_cases h3 : c = '$'
      · subst h3; rfl
      · by_cases h4 : c = '\x60'
        · subst h4; rfl
        · by_cases h5 : c = '\\'
          · subst h5; rfl
          · have h6 : cleanSub c = [c] := by
              simp [cleanSub, h1, h2, h3, h4, h5]
            rw [h6]
            show dquoteSafeAux (c :: l) false = dquoteSafeAux l false
            simp [dquoteSafeAux, h1, h2, h3, h4, h5]

theorem dquoteSafe_append_cleanSubOld (c : Char) (l : List Char) :
    dquoteSafeAux (cleanSubOld c ++ l) false = dquoteSafeAux l false := by
  by_cases h1 : c = '"'
  · subst h1; rfl
  · by_cases h2 : c = '\n'
    · subst h2; rfl
    · by_cases h3 : c = '$'
      · subst h3; rfl
      · by_cases h4 : c = '\x60'
        · subst h4; rfl
        · by_cases h5 : c = '\\'
          · subst h5; rfl
          · have h6 : cleanSubOld c = [c] := by
              simp [cleanSubOld, h1, h2, h3, h4, h5]
            rw [h6]
            show dquoteSafeAux (c :: l) false = dquoteSafeAux l false
            simp [dquoteSafeAux, h1, h2, h3, h4, h5]

theorem dquoteSafe_clean_list : ∀ l : List Char,
    dquoteSafe ((l.map cleanSub).flatten) = true := by
  intro l
  induction l with
  | nil => rfl
  | cons a t ih =>
    simp only [List.map_cons, List.flatten_cons]
    show dquoteSafeAux (cleanSub a ++ (List.map cleanSub t).flatten) false = true
    rw [dquoteSafe_append_cleanSub]
    exact ih

theorem dquoteSafe_cleanOld_list : ∀ l : List Char,
    dquoteSafe ((l.map cleanSubOld).flatten) = true := by
  intro l
  induction l with
  | nil => rfl
  | cons a t ih =>
    simp only [List.map_cons, List.flatten_cons]
    show dquoteSafeAux (cleanSubOld a ++ (List.map cleanSubOld t).flatten) false = true
    rw [dquoteSafe_append_cleanSubOld]
    exact ih

theorem newline_not_mem_cleanSub (c : Char) : '\n' ∉ cleanSub c := by
  unfold cleanSub
  split_ifs with h1 h2 h3 h4 h5
  · decide
  · decide
  · decide
  · decide
  · decide
  · intro hmem
    rcases List.mem_singleton.mp hmem with h
    exact h2 h.symm

theorem newline_not_mem_cleanSubOld (c : Char) : '\n' ∉ cleanSubOld c := by
  unfold cleanSubOld
  split_ifs with h1 h2 h3 h4 h5
  · decide
  · decide
  · decide
  · decide
  · decide
  · intro hmem
    rcases List.mem_singleton.mp hmem with h
    exact h2 h.symm

theorem newline_not_mem_clean_list : ∀ l : List Char,
    '\n' ∉ (l.map cleanSub).flatten := by
  intro l
  induction l with
  | nil => intro h; cases h
  | cons a t ih =>
    simp only [List.map_cons, List.flatten_cons]
    intro h
    rcases List.mem_append.mp h with h1 | h1
    · exact newline_not_mem_cleanSub a h1
    · exact ih h1

theorem newline_not_mem_cleanOld_list : ∀ l : List Char,
    '\n' ∉ (l.map cleanSubOld).flatten := by
  intro l
  induction l with
  | nil => intro h; cases h
  | cons a t ih =>
    simp only [List.map_cons, List.flatten_cons]
    intro h
    rcases List.mem_append.mp h with h1 | h1
    · exact newline_not_mem_cleanSubOld a h1
    · exact ih h1

theorem one_le_length_cleanSub (c : Char) : 1 ≤ (cleanSub c).length := by
  unfold cleanSub
  split_ifs <;> simp

theorem length_le_clean : ∀ l : List Char,
    l.length ≤ ((l.map cleanSub).flatten).length := by
  intro l
  induction l with
  | nil => simp
  | cons a t ih =>
    simp only [List.map_cons, List.flatten_cons, List.length_append, List.length_cons]
    have h1 := one_le_length_cleanSub a
    omega

theorem backslash_mem_clean {l : List Char} {c : Char} (hc : c ∈ l)
    (h : c = '"' ∨ c = '$' ∨ c = '\x60' ∨ c = '\\') :
    '\\' ∈ (l.map cleanSub).flatten := by
  apply List.mem_flatten.mpr
  refine ⟨cleanSub c, List.mem_map_of_mem cleanSub hc, ?_⟩
  rcases h with h | h | h | h <;> subst h <;> decide

theorem length_lt_clean_of_backslash : ∀ {l : List Char}, '\\' ∈ l →
    l.length < ((l.map cleanSub).flatten).length := by
  intro l
  induction l with
  | nil => intro h; cases h
  | cons a t ih =>
    intro h
    simp only [List.map_cons, List.flatten_cons, List.length_append, List.length_cons]
    rcases List.mem_cons.mp h with h1 | h1
    · have h2 : a = '\\' := h1.symm
      subst h2
      have h3 := length_le_clean t
      have h4 : (cleanSub '\\').length = 2 := rfl
      omega
    · have h2 := ih h1
      have h3 := one_le_length_cleanSub a
      omega

theorem backtick_mem_of_fenceHeader {l r : List Char}
    (h : fenceHeader l = some r) : '\x60' ∈ l := by
  unfold fenceHeader at h
  split_ifs at h with h1 h2 h3
  · have hm : '\x60' ∈ l.take 8 := by rw [h1]; decide
    exact List.take_subset 8 l hm
  · have hm : '\x60' ∈ l.take 9 := by rw [h2]; decide
    exact List.take_subset 9 l hm
  · have hm : '\x60' ∈ l.take 4 := by rw [h3]; decide
    exact List.take_subset 4 l hm

theorem findallFence_nil_of_no_backtick
    (pat : List Char → Option (List Char × List Char)) :
    ∀ (fuel : Nat) (l : List Char), '\x60' ∉ l → findallFenceAux pat fuel l = [] := by
  intro fuel
  induction fuel with
  | zero => intro l h; rfl
  | succ n ih =>
    intro l h
    cases l with
    | nil => rfl
    | cons c rest =>
      have hm : fenceHeader (c :: rest) = none := by
        cases hh : fenceHeader (c :: rest) with
        | none => rfl
        | some r => exact absurd (backtick_mem_of_fenceHeader hh) h
      simp only [findallFenceAux, hm, List.tail_cons]
      exact ih rest (fun hr => h (List.mem_cons_of_mem c hr))

theorem pyStripList_eq_nil_of_all_space {l : List Char}
    (h : ∀ c ∈ l, pyIsSpace c = true) : pyStripList l = [] := by
  unfold pyStripList
  have h1 : l.dropWhile pyIsSpace = [] := List.dropWhile_eq_nil_iff.mpr h
  rw [h1]
  rfl

/- ------------------------------------------------------------------ -/
/- Claim theorems. -/

/-- C1 (code bug, failing input): on a response whose last (and only) code
block holds the two lines `echo bye` and `echo final`, src/shellai.py's
`extract_command` returns the block's FIRST line `echo bye`, because the
lazy group of its regex `(?:bash|shell)?` fence pattern stops at the first
newline; the claim (and the source's own comment "Get the last line from
the last code block", matched by the older src/shellAI.py extractor) says
the result is the last non-empty line `echo final`. -/
theorem c1_extract_first_line_eval :
    extract_command "```bash\necho bye\necho final\n```" = some "echo bye" ∧
    extract_commandOld "```bash\necho bye\necho final\n```" = some "echo final" := by
  decide

/-- C2 (counterexample): on the empty response the fallback
`response.strip().splitlines()[-1]` of `extract_command` raises IndexError
(modelled as `none`); the extractor neither returns a string nor satisfies
`extract("") == ""`. -/
theorem c2_extract_empty_raises : extract_command "" = none := by decide

/-- C2 (amended): for every input string containing at least one character
outside Python's whitespace set the extractor returns a string without
raising; and on every whitespace-only input (the empty string included) it
raises IndexError, modelled as `none`. -/
theorem c2_extract_total_on_nonblank (s : String) :
    ((∃ c ∈ s.data, pyIsSpace c = false) → (extract_command s).isSome = true) ∧
    ((∀ c ∈ s.data, pyIsSpace c = true) → extract_command s = none) := by
  constructor
  · intro h
    obtain ⟨c, hc, hcs⟩ := h
    have h1 : pyStripList s.data ≠ [] := pyStripList_ne_nil hc hcs
    have h2 : pySplitlinesList (pyStripList s.data) ≠ [] := pySplitlinesList_ne_nil h1
    unfold extract_command
    cases hb : (fenceBlocks s).getLast? with
    | some b => simp
    | none =>
      cases hl : (pySplitlinesList (pyStripList s.data)).getLast? with
      | some l => simp
      | none => exact absurd (List.getLast?_eq_none_iff.mp hl) h2
  · intro h
    have hnb : '\x60' ∉ s.data := by
      intro hb
      have hsp := h _ hb
      exact absurd hsp (by decide)
    have hfb : fenceBlocks s = [] :=
      findallFence_nil_of_no_backtick lazyToNewline s.data.length s.data hnb
    have hstrip : pyStripList s.data = [] := pyStripList_eq_nil_of_all_space h
    unfold extract_command
    rw [hfb, hstrip]
    rfl

/-- C2 (witness): the success direction of the amended theorem applied at
the concrete response `"ls"`. -/
theorem c2_extract_total_on_nonblank_wit :
    (∃ c ∈ ("ls" : String).data, pyIsSpace c = false) ∧
    (extract_command "ls").isSome = true :=
  ⟨by decide, (c2_extract_total_on_nonblank "ls").1 (by decide)⟩

/-- C3 (confirmed): the output of either sanitizer never contains an
unescaped double-quote, dollar, backtick or backslash (every backslash in
the output opens an escape pair, formalised by `dquoteSafe`) and never a
raw newline; each special character is rewritten by the fixed single-pass
table (`"` to backslash-quote, newline to a space in src/shellai.py and to
nothing in src/shellAI.py, `$` to backslash-dollar, backtick to
backslash-backtick, backslash to double backslash) and every other
character passes through unchanged. -/
theorem c3_clean_command_escapes : ∀ s : String,
    (dquoteSafe (clean_command s).data = true ∧ '\n' ∉ (clean_command s).data) ∧
    (dquoteSafe (clean_commandOld s).data = true ∧ '\n' ∉ (clean_commandOld s).data) ∧
    (clean_command "\"" = "\\\"" ∧ clean_command "\n" = " " ∧
     clean_commandOld "\n" = "" ∧ clean_command "$" = "\\$" ∧
     clean_command "`" = "\\`" ∧ clean_command "\\" = "\\\\") ∧
    (∀ c : Char, (c = '"' ∨ c = '\n' ∨ c = '$' ∨ c = '\x60' ∨ c = '\\') ∨
      (clean_command (String.mk [c]) = String.mk [c] ∧
       clean_commandOld (String.mk [c]) = String.mk [c])) := by
  intro s
  refine ⟨⟨dquoteSafe_clean_list s.data, newline_not_mem_clean_list s.data⟩,
          ⟨dquoteSafe_cleanOld_list s.data, newline_not_mem_cleanOld_list s.data⟩,
          ⟨by decide, by decide, by decide, by decide, by decide, by decide⟩, ?_⟩
  intro c
  by_cases h1 : c = '"'
  · exact Or.inl (Or.inl h1)
  · by_cases h2 : c = '\n'
    · exact Or.inl (Or.inr (Or.inl h2))
    · by_cases h3 : c = '$'
      · exact Or.inl (Or.inr (Or.inr (Or.inl h3)))
      · by_cases h4 : c = '\x60'
        · exact Or.inl (Or.inr (Or.inr (Or.inr (Or.inl h4))))
        · by_cases h5 : c = '\\'
          · exact Or.inl (Or.inr (Or.inr (Or.inr (Or.inr h5))))
          · refine Or.inr ⟨?_, ?_⟩
            · show String.mk ([c].map cleanSub).flatten = String.mk [c]
              simp [cleanSub, h1, h2, h3, h4, h5]
            · show String.mk ([c].map cleanSubOld).flatten = String.mk [c]
              simp [cleanSubOld, h1, h2, h3, h4, h5]

/-- C9 (confirmed): the sanitizer is not idempotent — for every input
containing a character that the table maps to an escaped form (a
double-quote, dollar, backtick or backslash), a second pass re-escapes the
backslashes introduced by the first pass, so the results differ. -/
theorem c9_clean_not_idempotent (s : String)
    (h : ∃ c ∈ s.data, c = '"' ∨ c = '$' ∨ c = '\x60' ∨ c = '\\') :
    clean_command (clean_command s) ≠ clean_command s := by
  obtain ⟨c, hc, hor⟩ := h
  have hb : '\\' ∈ (clean_command s).data := backslash_mem_clean hc hor
  have hlt : (clean_command s).data.length < (clean_command (clean_command s)).data.length :=
    length_lt_clean_of_backslash hb
  intro he
  rw [he] at hlt
  exact lt_irrefl _ hlt

/-- C9 (witness): the theorem applied at the single-character input `"`,
where `sanitize` gives backslash-quote and a second pass gives
backslash-backslash-backslash-quote. -/
theorem c9_clean_not_idempotent_wit :
    (∃ c ∈ ("\"" : String).data, c = '"' ∨ c = '$' ∨ c = '\x60' ∨ c = '\\') ∧
    clean_command (clean_command "\"") ≠ clean_command "\"" :=
  ⟨by decide, c9_clean_not_idempotent "\"" (by decide)⟩

/-- C10 (confirmed): when stdin is a tty, the scrollback-capture branch is
taken exactly when the TMUX environment variable is not set to the empty
string — an unset variable (None) and every non-empty value both pass the
Python guard `os.getenv("TMUX") != ""`, and only `TMUX=""` skips capture. -/
theorem c10_tmux_guard : ∀ tmuxEnv : Option String,
    selectInputSource true tmuxEnv =
      (if tmuxEnv = some "" then InputSource.empty else InputSource.paneCapture) := by
  intro t
  cases t with
  | none => simp [selectInputSource, tmuxGuard]
  | some v =>
    by_cases hv : v = ""
    · subst hv; simp [selectInputSource, tmuxGuard]
    · simp [selectInputSource, tmuxGuard, hv]

theorem script_missing_key_eq (args : Args) (p : Provider) (env : String → Option String)
    (fetch : FetchOutcome) (logOk cmdLogOk : Bool)
    (prefixInput inputString sysPrompt : String) (argv : List String)
    (defaultTarget : String) (h : env p.api_key = none) :
    script_m args p env fetch logOk cmdLogOk prefixInput inputString sysPrompt argv defaultTarget
      = ([Effect.print ("need " ++ p.api_key ++ " environment variable")], Term.exited 0) := by
  unfold script_m
  rw [h]

theorem script_httpError_eq (args : Args) (p : Provider) (env : String → Option String)
    (k : String) (status : Nat) (body : String) (logOk cmdLogOk : Bool)
    (prefixInput inputString sysPrompt : String) (argv : List String)
    (defaultTarget : String)
    (hdbg : args.debug = false) (hk : env p.api_key = some k)
    (hin : prefixInput ++ inputString ≠ "") :
    script_m args p env (FetchOutcome.httpError status body) logOk cmdLogOk
        prefixInput inputString sysPrompt argv defaultTarget
      = ((if args.verbose then [Effect.print "getting response"] else []) ++
          [Effect.httpPost p.url, Effect.print ("Error: " ++ toString status), Effect.print body],
         Term.exited 0) := by
  unfold script_m
  rw [hk, if_neg hin]
  unfold main_m get_response_m
  rw [hdbg]
  simp only [Bool.false_eq_true, if_false, get_response_default_m]

theorem script_malformed_eq (args : Args) (p : Provider) (env : String → Option String)
    (k : String) (rawBody : String) (logOk cmdLogOk : Bool)
    (prefixInput inputString sysPrompt : String) (argv : List String)
    (defaultTarget : String)
    (hdbg : args.debug = false) (hk : env p.api_key = some k)
    (hin : prefixInput ++ inputString ≠ "") :
    script_m args p env (FetchOutcome.malformed rawBody) logOk cmdLogOk
        prefixInput inputString sysPrompt argv defaultTarget
      = ((if args.verbose then [Effect.print "getting response"] else []) ++
          [Effect.httpPost p.url, Effect.print "unexpected output", Effect.print rawBody],
         Term.exited 0) := by
  unfold script_m
  rw [hk, if_neg hin]
  unfold main_m get_response_m
  rw [hdbg]
  simp only [Bool.false_eq_true, if_false, get_response_default_m]

theorem filter_isShellEffect_verbosePre (b : Bool) :
    ((if b then [Effect.print "getting response"] else []).filter isShellEffect) = [] := by
  cases b <;> rfl

theorem filter_isNetworkEffect_print (s : String) :
    ([Effect.print s].filter isNetworkEffect) = [] := rfl

/-- C4 (confirmed): when the provider's credential environment variable is
absent, the script prints a message naming exactly that variable and quits;
the whole effect trace is that single print, so in particular no network
call (`httpPost`) is ever made. -/
theorem c4_missing_key_stops_before_network (args : Args) (p : Provider)
    (env : String → Option String) (fetch : FetchOutcome) (logOk cmdLogOk : Bool)
    (prefixInput inputString sysPrompt : String) (argv : List String)
    (defaultTarget : String) (h : env p.api_key = none) :
    script_m args p env fetch logOk cmdLogOk prefixInput inputString sysPrompt argv defaultTarget
      = ([Effect.print ("need " ++ p.api_key ++ " environment variable")], Term.exited 0) ∧
    (script_m args p env fetch logOk cmdLogOk prefixInput inputString sysPrompt argv
        defaultTarget).1.filter isNetworkEffect = [] := by
  have h1 := script_missing_key_eq args p env fetch logOk cmdLogOk prefixInput inputString
    sysPrompt argv defaultTarget h
  refine ⟨h1, ?_⟩
  rw [h1]
  rfl

/-- C4 (witness): the theorem applied to the default provider (openrouter)
with an empty environment. -/
theorem c4_missing_key_stops_before_network_wit :
    ((fun _ => (none : Option String)) openrouterProvider.api_key = none) ∧
    (script_m argsPlain openrouterProvider (fun _ => none) (FetchOutcome.ok "x") true true
        "hi" "" "sys" [] "tgt"
      = ([Effect.print ("need " ++ openrouterProvider.api_key ++ " environment variable")],
         Term.exited 0) ∧
    (script_m argsPlain openrouterProvider (fun _ => none) (FetchOutcome.ok "x") true true
        "hi" "" "sys" [] "tgt").1.filter isNetworkEffect = []) :=
  ⟨rfl, c4_missing_key_stops_before_network argsPlain openrouterProvider (fun _ => none)
    (FetchOutcome.ok "x") true true "hi" "" "sys" [] "tgt" rfl⟩

/-- C5 (counterexample): in the missing-credential scenario the process
terminates through `quit()`, i.e. SystemExit with no argument, so its exit
status is 0 — not the non-zero status the claim asserts. -/
theorem c5_exit_status_zero_cex :
    exitCode (script_m argsPlain openrouterProvider (fun _ => none) (FetchOutcome.ok "x")
      true true "hi" "" "sys" [] "tgt").2 = 0 := rfl

/-- C5 (amended): on a missing credential variable, a non-200 HTTP status,
or a response missing `choices[0].message.content`, the process prints a
diagnostic and terminates via `quit()` — with exit status 0, not non-zero. -/
theorem c5_diagnostic_then_quit (args : Args) (p : Provider)
    (env : String → Option String) (fetch : FetchOutcome) (logOk cmdLogOk : Bool)
    (prefixInput inputString sysPrompt : String) (argv : List String)
    (defaultTarget : String) (tr : List Effect) (t : Term)
    (hdbg : args.debug = false) (hin : prefixInput ++ inputString ≠ "")
    (hstrat : p.strategy = FetchStrategy.httpJson)
    (htr : script_m args p env fetch logOk cmdLogOk prefixInput inputString sysPrompt argv
        defaultTarget = (tr, t)) :
    (env p.api_key = none →
      tr = [Effect.print ("need " ++ p.api_key ++ " environment variable")] ∧
      t = Term.exited 0 ∧ exitCode t = 0) ∧
    (∀ k status body, env p.api_key = some k → fetch = FetchOutcome.httpError status body →
      Effect.print ("Error: " ++ toString status) ∈ tr ∧ Effect.print body ∈ tr ∧
      t = Term.exited 0 ∧ exitCode t = 0) ∧
    (∀ k rawBody, env p.api_key = some k → fetch = FetchOutcome.malformed rawBody →
      Effect.print "unexpected output" ∈ tr ∧ Effect.print rawBody ∈ tr ∧
      t = Term.exited 0 ∧ exitCode t = 0) := by
  refine ⟨?_, ?_, ?_⟩
  · intro hk
    rw [script_missing_key_eq args p env fetch logOk cmdLogOk prefixInput inputString
      sysPrompt argv defaultTarget hk] at htr
    cases htr
    exact ⟨rfl, rfl, rfl⟩
  · intro k status body hk hf
    subst hf
    rw [script_httpError_eq args p env k status body logOk cmdLogOk prefixInput inputString
      sysPrompt argv defaultTarget hdbg hk hin] at htr
    cases htr
    refine ⟨?_, ?_, rfl, rfl⟩
    · cases hv : args.verbose <;> simp
    · cases hv : args.verbose <;> simp
  · intro k rawBody hk hf
    subst hf
    rw [script_malformed_eq args p env k rawBody logOk cmdLogOk prefixInput inputString
      sysPrompt argv defaultTarget hdbg hk hin] at htr
    cases htr
    refine ⟨?_, ?_, rfl, rfl⟩
    · cases hv : args.verbose <;> simp
    · cases hv : args.verbose <;> simp

/-- C5 (witness): the amended theorem applied at a concrete HTTP-500 run
against the openrouter provider. -/
theorem c5_diagnostic_then_quit_wit :
    (argsPlain.debug = false) ∧ ("hi" ++ "" ≠ "") ∧
    ((∀ k status body,
        (fun v => if v = "OPENROUTER_API_KEY" then some "sk" else none) openrouterProvider.api_key
          = some k →
        (FetchOutcome.httpError 500 "internal error" : FetchOutcome)
          = FetchOutcome.httpError status body →
      Effect.print ("Error: " ++ toString status) ∈
        (script_m argsPlain openrouterProvider
          (fun v => if v = "OPENROUTER_API_KEY" then some "sk" else none)
          (FetchOutcome.httpError 500 "internal error") true true "hi" "" "sys" [] "tgt").1 ∧
      Effect.print body ∈
        (script_m argsPlain openrouterProvider
          (fun v => if v = "OPENROUTER_API_KEY" then some "sk" else none)
          (FetchOutcome.httpError 500 "internal error") true true "hi" "" "sys" [] "tgt").1 ∧
      (script_m argsPlain openrouterProvider
          (fun v => if v = "OPENROUTER_API_KEY" then some "sk" else none)
          (FetchOutcome.httpError 500 "internal error") true true "hi" "" "sys" [] "tgt").2
        = Term.exited 0 ∧
      exitCode (script_m argsPlain openrouterProvider
          (fun v => if v = "OPENROUTER_API_KEY" then some "sk" else none)
          (FetchOutcome.httpError 500 "internal error") true true "hi" "" "sys" [] "tgt").2
        = 0)) :=
  ⟨rfl, by decide,
   (c5_diagnostic_then_quit argsPlain openrouterProvider
      (fun v => if v = "OPENROUTER_API_KEY" then some "sk" else none)
      (FetchOutcome.httpError 500 "internal error") true true "hi" "" "sys" [] "tgt"
      (script_m argsPlain openrouterProvider
        (fun v => if v = "OPENROUTER_API_KEY" then some "sk" else none)
        (FetchOutcome.httpError 500 "internal error") true true "hi" "" "sys" [] "tgt").1
      (script_m argsPlain openrouterProvider
        (fun v => if v = "OPENROUTER_API_KEY" then some "sk" else none)
        (FetchOutcome.httpError 500 "internal error") true true "hi" "" "sys" [] "tgt").2
      rfl (by decide) rfl rfl).2.1⟩

/-- C6 (confirmed): with the HTTP_JSON strategy, a non-200 provider status
makes the script print the status code and the response body and quit; the
trace contains no `subprocess.run` call at all, so no tmux send-keys pane
injection happens. -/
theorem c6_http_error_no_injection (args : Args) (p : Provider)
    (env : String → Option String) (k : String) (status : Nat) (body : String)
    (logOk cmdLogOk : Bool) (prefixInput inputString sysPrompt : String)
    (argv : List String) (defaultTarget : String) (tr : List Effect) (t : Term)
    (hstrat : p.strategy = FetchStrategy.httpJson)
    (hdbg : args.debug = false) (hk : env p.api_key = some k)
    (hin : prefixInput ++ inputString ≠ "")
    (htr : script_m args p env (FetchOutcome.httpError status body) logOk cmdLogOk
        prefixInput inputString sysPrompt argv defaultTarget = (tr, t)) :
    Effect.print ("Error: " ++ toString status) ∈ tr ∧ Effect.print body ∈ tr ∧
    t = Term.exited 0 ∧ tr.filter isShellEffect = [] := by
  rw [script_httpError_eq args p env k status body logOk cmdLogOk prefixInput inputString
    sysPrompt argv defaultTarget hdbg hk hin] at htr
  cases htr
  refine ⟨?_, ?_, rfl, ?_⟩
  · cases hv : args.verbose <;> simp
  · cases hv : args.verbose <;> simp
  · rw [List.filter_append, filter_isShellEffect_verbosePre]
    rfl

/-- C6 (witness): the theorem applied at a concrete HTTP-500 run. -/
theorem c6_http_error_no_injection_wit :
    (openrouterProvider.strategy = FetchStrategy.httpJson) ∧
    (Effect.print ("Error: " ++ toString 500) ∈
      (script_m argsPlain openrouterProvider (fun _ => some "sk")
        (FetchOutcome.httpError 500 "internal error") true true "hi" "" "sys" [] "tgt").1 ∧
     Effect.print "internal error" ∈
      (script_m argsPlain openrouterProvider (fun _ => some "sk")
        (FetchOutcome.httpError 500 "internal error") true true "hi" "" "sys" [] "tgt").1 ∧
     (script_m argsPlain openrouterProvider (fun _ => some "sk")
        (FetchOutcome.httpError 500 "internal error") true true "hi" "" "sys" [] "tgt").2
       = Term.exited 0 ∧
     (script_m argsPlain openrouterProvider (fun _ => some "sk")
        (FetchOutcome.httpError 500 "internal error") true true "hi" "" "sys" [] "tgt").1.filter
       isShellEffect = []) :=
  ⟨rfl, c6_http_error_no_injection argsPlain openrouterProvider (fun _ => some "sk") "sk"
    500 "internal error" true true "hi" "" "sys" [] "tgt"
    (script_m argsPlain openrouterProvider (fun _ => some "sk")
      (FetchOutcome.httpError 500 "internal error") true true "hi" "" "sys" [] "tgt").1
    (script_m argsPlain openrouterProvider (fun _ => some "sk")
      (FetchOutcome.httpError 500 "internal error") true true "hi" "" "sys" [] "tgt").2
    rfl rfl rfl (by decide) rfl⟩

theorem get_response_ok_eq (args : Args) (p : Provider) (content : String) (logOk : Bool)
    (prefixInput prompt sysPrompt : String)
    (hdbg : args.debug = false) (hor : args.log = none ∨ logOk = true) :
    get_response_m args p (FetchOutcome.ok content) logOk prefixInput prompt sysPrompt
      = ((if args.verbose then [Effect.print "getting response"] else []) ++
         [Effect.httpPost p.url] ++
         (if args.verbose then [Effect.print "raw response", Effect.print dashesLine,
            Effect.print content, Effect.print dashesLine] else []) ++
         (match args.log with | none => [] | some f => [Effect.fileWrite f content]),
         Except.ok content) := by
  unfold get_response_m
  rw [hdbg]
  simp only [Bool.false_eq_true, if_false, get_response_default_m]
  rcases hor with h | h
  · rw [h]
    simp
  · cases hl : args.log with
    | none => simp
    | some f => rw [h]; simp

theorem get_response_logfail_eq (args : Args) (p : Provider) (content f : String)
    (prefixInput prompt sysPrompt : String)
    (hdbg : args.debug = false) (hlog : args.log = some f) :
    get_response_m args p (FetchOutcome.ok content) false prefixInput prompt sysPrompt
      = ((if args.verbose then [Effect.print "getting response"] else []) ++
         [Effect.httpPost p.url] ++
         (if args.verbose then [Effect.print "raw response", Effect.print dashesLine,
            Effect.print content, Effect.print dashesLine] else []),
         Except.error (Term.crashed "OSError")) := by
  unfold get_response_m
  rw [hdbg]
  simp only [Bool.false_eq_true, if_false, get_response_default_m]
  rw [hlog]

/-- C7 (counterexample): with a response log configured and the write to it
failing, the run ends with an uncaught OSError and the effect trace holds
no `subprocess.run` call at all — the extracted command is never sanitized
nor injected, contradicting the claim that log failures do not abort
command delivery. -/
theorem c7_log_failure_cex :
    (script_m argsWithLog openrouterProvider (fun _ => some "sk") (FetchOutcome.ok "resp")
      false true "do x" "" "sys" [] "tgt").1.filter isShellEffect = [] ∧
    (script_m argsWithLog openrouterProvider (fun _ => some "sk") (FetchOutcome.ok "resp")
      false true "do x" "" "sys" [] "tgt").2 = Term.crashed "OSError" :=
  ⟨rfl, rfl⟩

/-- C7 (amended): a failure to write the response log or the command log
raises an uncaught OSError that aborts the invocation before any pane
injection: the trace holds no tmux send-keys call and the process dies
with exit status 1 (the interpreter's traceback, not a handled report). -/
theorem c7_log_failure_aborts (args : Args) (p : Provider)
    (env : String → Option String) (k content : String) (logOk cmdLogOk : Bool)
    (prefixInput inputString sysPrompt : String) (argv : List String)
    (defaultTarget : String) (tr : List Effect) (t : Term)
    (hdbg : args.debug = false) (hk : env p.api_key = some k)
    (hin : prefixInput ++ inputString ≠ "")
    (htr : script_m args p env (FetchOutcome.ok content) logOk cmdLogOk
        prefixInput inputString sysPrompt argv defaultTarget = (tr, t)) :
    (∀ f, args.log = some f → logOk = false →
      tr.filter isShellEffect = [] ∧ t = Term.crashed "OSError" ∧ exitCode t = 1) ∧
    (∀ g command, (args.log = none ∨ logOk = true) → args.log_commands = some g →
      cmdLogOk = false → extract_command content = some command → command ≠ "" →
      tr.filter isShellEffect = [] ∧ t = Term.crashed "OSError" ∧ exitCode t = 1) := by
  constructor
  · intro f hlog hlogOk
    subst hlogOk
    have hs : script_m args p env (FetchOutcome.ok content) false cmdLogOk
        prefixInput inputString sysPrompt argv defaultTarget
        = ((if args.verbose then [Effect.print "getting response"] else []) ++
           [Effect.httpPost p.url] ++
           (if args.verbose then [Effect.print "raw response", Effect.print dashesLine,
              Effect.print content, Effect.print dashesLine] else []),
           Term.crashed "OSError") := by
      unfold script_m
      rw [hk, if_neg hin]
      unfold main_m
      rw [get_response_logfail_eq args p content f prefixInput
        (prefixInput ++ ":\n" ++ inputString) sysPrompt hdbg hlog]
    rw [hs] at htr
    cases htr
    refine ⟨?_, rfl, rfl⟩
    cases hv : args.verbose <;> rfl
  · intro g command hor hlogc hclo hcmd hcmdne
    subst hclo
    have hs : script_m args p env (FetchOutcome.ok content) logOk false
        prefixInput inputString sysPrompt argv defaultTarget
        = ((if args.verbose then [Effect.print "getting response"] else []) ++
           [Effect.httpPost p.url] ++
           (if args.verbose then [Effect.print "raw response", Effect.print dashesLine,
              Effect.print content, Effect.print dashesLine] else []) ++
           (match args.log with | none => [] | some f => [Effect.fileWrite f content]) ++
           (if args.verbose then
              [Effect.print (pyLjust "code_blocks:" 20 ++
                String.intercalate ":" ((fenceBlocks content).map String.mk))]
            else []) ++
           (if ¬args.quiet then
              [Effect.print "\n", Effect.print (reSubLiteral command (reSubFence content))]
            else []) ++ [],
           Term.crashed "OSError") := by
      unfold script_m
      rw [hk, if_neg hin]
      unfold main_m
      rw [get_response_ok_eq args p content logOk prefixInput
        (prefixInput ++ ":\n" ++ inputString) sysPrompt hdbg hor]
      dsimp only
      rw [hcmd]
      dsimp only
      rw [if_neg hcmdne]
      unfold put_command_m
      rw [hlogc]
      simp
    rw [hs] at htr
    cases htr
    refine ⟨?_, rfl, rfl⟩
    cases hv : args.verbose <;> cases hq : args.quiet <;> cases hl : args.log <;>
      simp [List.filter_append, isShellEffect]

theorem strEndsWithEnter_enter (s : String) : strEndsWithEnter (s ++ "ENTER") = true := by
  unfold strEndsWithEnter
  rw [String.data_append, List.reverse_append]
  apply decide_eq_true
  show (['R', 'E', 'T', 'N', 'E'] ++ s.data.reverse).take 5 = ['R', 'E', 'T', 'N', 'E']
  have h5 := List.take_left (['R', 'E', 'T', 'N', 'E'] : List Char) s.data.reverse
  simpa using h5

theorem strEndsWithEnter_quote (s : String) : strEndsWithEnter (s ++ "\"") = false := by
  unfold strEndsWithEnter
  rw [String.data_append, List.reverse_append]
  apply decide_eq_false
  show ¬('"' :: s.data.reverse).take 5 = ['R', 'E', 'T', 'N', 'E']
  intro h
  rw [List.take_succ_cons] at h
  injection h with h1 h2
  exact absurd h1 (by decide)

theorem strEndsWithEnter_quoteSpaceEmpty (s : String) :
    strEndsWithEnter (s ++ "\" " ++ "") = false := by
  rw [String.append_empty]
  unfold strEndsWithEnter
  rw [String.data_append, List.reverse_append]
  apply decide_eq_false
  show ¬(' ' :: '"' :: s.data.reverse).take 5 = ['R', 'E', 'T', 'N', 'E']
  intro h
  rw [List.take_succ_cons] at h
  injection h with h1 h2
  exact absurd h1 (by decide)

theorem put_core_auto_true (args : Args) (c : String) (argv : List String)
    (defaultTarget : String) (hauto : args.auto = true) :
    ∃ pre0, put_command_core args c argv defaultTarget
        = pre0 ++ [Effect.sleep args.delay,
            Effect.shell ("tmux send-keys -t " ++ args.target ++ "  " ++ "ENTER")] ∧
      Effect.shell ("tmux send-keys -t " ++ args.target ++ " \"" ++
        (if args.recursive ∧ args.target = defaultTarget then
           c ++ ";shellai " ++ String.intercalate " " argv
         else c) ++ "\"") ∈ pre0 := by
  refine ⟨(if args.recursive ∧ ¬(args.target = defaultTarget) then
      [Effect.shell ("tmux send-keys \"shellai " ++ String.intercalate " " argv ++ "\" " ++ "ENTER"),
       Effect.print "\n"]
    else []) ++
    [Effect.shell ("tmux send-keys -t " ++ args.target ++ " \"" ++
      (if args.recursive ∧ args.target = defaultTarget then
         c ++ ";shellai " ++ String.intercalate " " argv
       else c) ++ "\"")] ++
    (if args.target = defaultTarget then [Effect.print "\n"] else []), ?_, ?_⟩
  · unfold put_command_core
    rw [hauto]
    simp [List.append_assoc]
  · simp

theorem strEndsWithEnter_quoteSpace (s : String) :
    strEndsWithEnter (s ++ "\" ") = false := by
  unfold strEndsWithEnter
  rw [String.data_append, List.reverse_append]
  apply decide_eq_false
  show ¬(' ' :: '"' :: s.data.reverse).take 5 = ['R', 'E', 'T', 'N', 'E']
  intro h
  rw [List.take_succ_cons] at h
  injection h with h1 h2
  exact absurd h1 (by decide)

theorem put_core_auto_false (args : Args) (c : String) (argv : List String)
    (defaultTarget : String) (hauto : args.auto = false) :
    Effect.shell ("tmux send-keys -t " ++ args.target ++ " \"" ++
        (if args.recursive ∧ args.target = defaultTarget then
           c ++ ";shellai " ++ String.intercalate " " argv
         else c) ++ "\"") ∈ put_command_core args c argv defaultTarget ∧
    (∀ q : ℚ, Effect.sleep q ∉ put_command_core args c argv defaultTarget) ∧
    (∀ e ∈ put_command_core args c argv defaultTarget, sendsEnter e = false) := by
  by_cases hrec : args.recursive = true
  · by_cases hdt : args.target = defaultTarget
    · have hc : put_command_core args c argv defaultTarget
          = [Effect.shell ("tmux send-keys -t " ++ args.target ++ " \"" ++
               (c ++ ";shellai " ++ String.intercalate " " argv) ++ "\""),
             Effect.print "\n"] := by
        unfold put_command_core
        rw [hauto]
        simp [hrec, hdt]
      rw [hc]
      refine ⟨?_, ?_, ?_⟩
      · simp [hrec, hdt]
      · intro q hq
        simp at hq
      · intro e he
        simp at he
        rcases he with rfl | rfl
        · show strEndsWithEnter ("tmux send-keys -t " ++ args.target ++ " \"" ++
            (c ++ ";shellai " ++ String.intercalate " " argv) ++ "\"") = false
          exact strEndsWithEnter_quote _
        · rfl
    · have hc : put_command_core args c argv defaultTarget
          = [Effect.shell ("tmux send-keys \"shellai " ++ String.intercalate " " argv ++ "\" "),
             Effect.print "\n",
             Effect.shell ("tmux send-keys -t " ++ args.target ++ " \"" ++ c ++ "\"")] := by
        unfold put_command_core
        rw [hauto]
        simp [hrec, hdt]
      rw [hc]
      refine ⟨?_, ?_, ?_⟩
      · simp [hrec, hdt]
      · intro q hq
        simp at hq
      · intro e he
        simp at he
        rcases he with rfl | rfl | rfl
        · show strEndsWithEnter ("tmux send-keys \"shellai " ++
            String.intercalate " " argv ++ "\" ") = false
          exact strEndsWithEnter_quoteSpace _
        · rfl
        · show strEndsWithEnter ("tmux send-keys -t " ++ args.target ++ " \"" ++ c ++ "\"") = false
          exact strEndsWithEnter_quote _
  · by_cases hdt : args.target = defaultTarget
    · have hc : put_command_core args c argv defaultTarget
          = [Effect.shell ("tmux send-keys -t " ++ args.target ++ " \"" ++ c ++ "\""),
             Effect.print "\n"] := by
        unfold put_command_core
        rw [hauto]
        simp [hrec, hdt]
      rw [hc]
      refine ⟨?_, ?_, ?_⟩
      · simp [hrec, hdt]
      · intro q hq
        simp at hq
      · intro e he
        simp at he
        rcases he with rfl | rfl
        · show strEndsWithEnter ("tmux send-keys -t " ++ args.target ++ " \"" ++ c ++ "\"") = false
          exact strEndsWithEnter_quote _
        · rfl
    · have hc : put_command_core args c argv defaultTarget
          = [Effect.shell ("tmux send-keys -t " ++ args.target ++ " \"" ++ c ++ "\"")] := by
        unfold put_command_core
        rw [hauto]
        simp [hrec, hdt]
      rw [hc]
      refine ⟨?_, ?_, ?_⟩
      · simp [hrec, hdt]
      · intro q hq
        simp at hq
      · intro e he
        simp at he
        rcases he with rfl
        show strEndsWithEnter ("tmux send-keys -t " ++ args.target ++ " \"" ++ c ++ "\"") = false
        exact strEndsWithEnter_quote _

/-- C8 (confirmed): in `put_command`, an Enter keystroke reaches the pane
exactly when auto-run is on; with auto-run the trace ends with the sleep of
`delay` seconds followed by the Enter send, and the command send itself
happens strictly before that sleep, giving the user a cancellation window;
without auto-run the command send occurs but no sleep and no
Enter-carrying tmux call at all, leaving the command on the input line. -/
theorem c8_enter_iff_auto (args : Args) (command : String) (argv : List String)
    (defaultTarget : String) (cmdLogOk : Bool) (tr : List Effect) (t : Term)
    (hlog : args.log_commands = none ∨ cmdLogOk = true)
    (htr : put_command_m args command argv defaultTarget cmdLogOk = (tr, t)) :
    ((∃ e ∈ tr, sendsEnter e = true) ↔ args.auto = true) ∧
    (args.auto = true → ∃ pre, tr = pre ++ [Effect.sleep args.delay,
        Effect.shell ("tmux send-keys -t " ++ args.target ++ "  " ++ "ENTER")] ∧
      Effect.shell (cmdSendString args (placedCommand args command argv defaultTarget)) ∈ pre) ∧
    (args.auto = false →
      Effect.shell (cmdSendString args (placedCommand args command argv defaultTarget)) ∈ tr ∧
      ∀ q : ℚ, Effect.sleep q ∉ tr) := by
  have hshape : ∃ fw : List Effect,
      tr = fw ++ put_command_core args (clean_command command) argv defaultTarget ∧
      (∀ e ∈ fw, sendsEnter e = false) ∧ (∀ q : ℚ, Effect.sleep q ∉ fw) := by
    rcases hlog with hl | hl
    · unfold put_command_m at htr
      rw [hl] at htr
      cases htr
      exact ⟨[], by simp, by simp, by simp⟩
    · unfold put_command_m at htr
      subst hl
      cases hlc : args.log_commands with
      | none =>
        rw [hlc] at htr
        cases htr
        exact ⟨[], by simp, by simp, by simp⟩
      | some f =>
        rw [hlc] at htr
        simp only [if_true] at htr
        cases htr
        refine ⟨[Effect.fileWrite f (clean_command command ++ "\n")], by simp, ?_, ?_⟩
        · intro e he
          simp at he
          subst he
          rfl
        · intro q hq
          simp at hq
  obtain ⟨fw, hteq, hfwEnter, hfwSleep⟩ := hshape
  subst hteq
  cases hauto : args.auto with
  | true =>
    obtain ⟨pre0, hcore, hmem⟩ :=
      put_core_auto_true args (clean_command command) argv defaultTarget hauto
    refine ⟨⟨fun _ => rfl, fun _ => ?_⟩, fun _ => ?_, fun hfalse => ?_⟩
    · refine ⟨Effect.shell ("tmux send-keys -t " ++ args.target ++ "  " ++ "ENTER"), ?_, ?_⟩
      · rw [hcore]
        simp
      · show strEndsWithEnter ("tmux send-keys -t " ++ args.target ++ "  " ++ "ENTER") = true
        exact strEndsWithEnter_enter _
    · refine ⟨fw ++ pre0, ?_, ?_⟩
      · rw [hcore, List.append_assoc]
      · show Effect.shell ("tmux send-keys -t " ++ args.target ++ " \"" ++
          (if args.recursive ∧ args.target = defaultTarget then
             clean_command command ++ ";shellai " ++ String.intercalate " " argv
           else clean_command command) ++ "\"") ∈ fw ++ pre0
        exact List.mem_append.mpr (Or.inr hmem)
    · exact Bool.noConfusion hfalse
  | false =>
    obtain ⟨hmem, hnosleep, hnoenter⟩ :=
      put_core_auto_false args (clean_command command) argv defaultTarget hauto
    refine ⟨⟨?_, fun h => ?_⟩, fun h => ?_, fun _ => ⟨?_, ?_⟩⟩
    · intro he
      obtain ⟨e, he, hse⟩ := he
      rcases List.mem_append.mp he with h | h
      · rw [hfwEnter e h] at hse
        cases hse
      · rw [hnoenter e h] at hse
        cases hse
    · exact Bool.noConfusion h
    · exact Bool.noConfusion h
    · show Effect.shell ("tmux send-keys -t " ++ args.target ++ " \"" ++
        (if args.recursive ∧ args.target = defaultTarget then
           clean_command command ++ ";shellai " ++ String.intercalate " " argv
         else clean_command command) ++ "\"") ∈
          fw ++ put_command_core args (clean_command command) argv defaultTarget
      exact List.mem_append.mpr (Or.inr hmem)
    · intro q hq
      rcases List.mem_append.mp hq with h | h
      · exact hfwSleep q h
      · exact hnosleep q h

/-- C7 (witness): the amended theorem applied at a run with a configured
response log whose write fails. -/
theorem c7_log_failure_aborts_wit :
    ("do x" ++ "" ≠ "") ∧
    ((∀ f, argsWithLog.log = some f → (false : Bool) = false →
        (script_m argsWithLog openrouterProvider (fun _ => some "sk") (FetchOutcome.ok "resp")
          false true "do x" "" "sys" [] "tgt").1.filter isShellEffect = [] ∧
        (script_m argsWithLog openrouterProvider (fun _ => some "sk") (FetchOutcome.ok "resp")
          false true "do x" "" "sys" [] "tgt").2 = Term.crashed "OSError" ∧
        exitCode (script_m argsWithLog openrouterProvider (fun _ => some "sk")
          (FetchOutcome.ok "resp") false true "do x" "" "sys" [] "tgt").2 = 1) ∧
     (∀ g command, (argsWithLog.log = none ∨ (false : Bool) = true) →
        argsWithLog.log_commands = some g → (true : Bool) = false →
        extract_command "resp" = some command → command ≠ "" →
        (script_m argsWithLog openrouterProvider (fun _ => some "sk") (FetchOutcome.ok "resp")
          false true "do x" "" "sys" [] "tgt").1.filter isShellEffect = [] ∧
        (script_m argsWithLog openrouterProvider (fun _ => some "sk") (FetchOutcome.ok "resp")
          false true "do x" "" "sys" [] "tgt").2 = Term.crashed "OSError" ∧
        exitCode (script_m argsWithLog openrouterProvider (fun _ => some "sk")
          (FetchOutcome.ok "resp") false true "do x" "" "sys" [] "tgt").2 = 1)) :=
  ⟨by decide, c7_log_failure_aborts argsWithLog openrouterProvider (fun _ => some "sk")
    "sk" "resp" false true "do x" "" "sys" [] "tgt"
    (script_m argsWithLog openrouterProvider (fun _ => some "sk") (FetchOutcome.ok "resp")
      false true "do x" "" "sys" [] "tgt").1
    (script_m argsWithLog openrouterProvider (fun _ => some "sk") (FetchOutcome.ok "resp")
      false true "do x" "" "sys" [] "tgt").2
    rfl rfl (by decide) rfl⟩

/-- C8 (witness): the theorem applied at an auto-run invocation with no
command log, target pane `t0` and a two-second delay. -/
theorem c8_enter_iff_auto_wit :
    (argsAuto.log_commands = none ∨ (true : Bool) = true) ∧
    (((∃ e ∈ (put_command_m argsAuto "ls" [] "t0" true).1, sendsEnter e = true) ↔
        argsAuto.auto = true) ∧
     (argsAuto.auto = true → ∃ pre, (put_command_m argsAuto "ls" [] "t0" true).1
         = pre ++ [Effect.sleep argsAuto.delay,
             Effect.shell ("tmux send-keys -t " ++ argsAuto.target ++ "  " ++ "ENTER")] ∧
       Effect.shell (cmdSendString argsAuto (placedCommand argsAuto "ls" [] "t0")) ∈ pre) ∧
     (argsAuto.auto = false →
       Effect.shell (cmdSendString argsAuto (placedCommand argsAuto "ls" [] "t0")) ∈
         (put_command_m argsAuto "ls" [] "t0" true).1 ∧
       ∀ q : ℚ, Effect.sleep q ∉ (put_command_m argsAuto "ls" [] "t0" true).1)) :=
  ⟨Or.inr rfl, c8_enter_iff_auto argsAuto "ls" [] "t0" true
    (put_command_m argsAuto "ls" [] "t0" true).1
    (put_command_m argsAuto "ls" [] "t0" true).2
    (Or.inl rfl) rfl⟩
